import Mathlib

/-!
Shallow embedding of `bulk_uploader_libre.py` (tomwhite/libre-nightscout-uploader).

The script reads a FreeStyle Libre TSV export, converts rows to Nightscout
entries, filters them against the last timestamp already stored remotely and
the run-start current time, and POSTs the batch.  Network and clock effects
are modelled as explicit parameters: the result of the watermark GET, the
result of the batch POST, the run-start epoch seconds, and the local
timezone offset in seconds.
-/

/-- Exceptions that can abort the run.  They correspond to the Python
exceptions that the script lets propagate: a `requests` transport error, a
JSON decode failure in `r.json()`, an `IndexError` on positional row access,
a `ValueError` from `datetime.strptime`, from `int(...)`, or from
`float(...)`. -/
inductive Err where
  | transportError
  | jsonDecodeError
  | indexError
  | malformedTimestamp
  | malformedRecord
  | malformedValue
deriving DecidableEq, Repr

/-- Python `int(q)` on a rational: truncation toward zero, as `Int.tdiv`. -/
def pytrunc (q : ℚ) : ℤ := q.num.tdiv q.den

/-- Source `to_mldg` (line 42-43): `int(mmoll * 18.018018)`.  The float
literal `18.018018` is exactly the rational `18018018 / 10^6`; the readings
appearing in the export are small decimals for which binary floating point
and exact rational arithmetic yield the same truncated integer.  The
product `mmoll * 18018018/10^6` is truncated as the unreduced fraction
`(num * 18018018) / (den * 10^6)`, which has the same truncation as the
reduced one; `to_mldg_eq_pytrunc_mul` below states the equivalence. -/
def to_mldg (mmoll : ℚ) : ℤ :=
  (mmoll.num * 18018018).tdiv (mmoll.den * 1000000)

/-- A parsed naive datetime as produced by
`datetime.strptime(time, "%Y/%m/%d %H:%M")`: minute granularity, no seconds
field (seconds and microseconds are zero). -/
structure DT where
  year : Nat
  month : Nat
  day : Nat
  hour : Nat
  minute : Nat
deriving DecidableEq, Repr

def isLeapYear (y : Nat) : Bool :=
  y % 4 == 0 && (y % 100 != 0 || y % 400 == 0)

def daysInMonth (y m : Nat) : Nat :=
  if m = 2 then (if isLeapYear y then 29 else 28)
  else if m = 4 ∨ m = 6 ∨ m = 9 ∨ m = 11 then 30
  else 31

/-- Days in months strictly before month `m` of year `y`. -/
def daysBeforeMonth (y : Nat) : Nat → Nat
  | 0 => 0
  | 1 => 0
  | m + 1 => daysBeforeMonth y m + daysInMonth y m

/-- Proleptic Gregorian ordinal, as Python's `date.toordinal`
(0001-01-01 is day 1). -/
def toOrdinal (y m d : Nat) : Nat :=
  365 * (y - 1) + (y - 1) / 4 - (y - 1) / 100 + (y - 1) / 400
    + daysBeforeMonth y m + d

/-- Split a character list at every occurrence of `sep`; `acc` holds the
characters of the current piece in reverse. -/
def splitCharsAux (sep : Char) : List Char → List Char → List String
  | [], acc => [String.mk acc.reverse]
  | c :: cs, acc =>
    if c = sep then String.mk acc.reverse :: splitCharsAux sep cs []
    else splitCharsAux sep cs (c :: acc)

/-- Split a string at every occurrence of the character `sep`
(`str.split(sep)` in Python for a one-character separator). -/
def splitOnChar (sep : Char) (s : String) : List String :=
  splitCharsAux sep s.toList []

/-- Value of a nonempty all-digit character list, `none` otherwise. -/
def decDigitsAux : List Char → Nat → Option Nat
  | [], acc => some acc
  | c :: cs, acc =>
    if c.isDigit then decDigitsAux cs (acc * 10 + (c.toNat - '0'.toNat))
    else none

/-- Value of a nonempty decimal-digit string, `none` otherwise. -/
def parseDigits (s : String) : Option Nat :=
  match s.toList with
  | [] => none
  | cs => decDigitsAux cs 0

/-- A digit field of `strptime`: between `lo` and `hi` characters, all
digits. -/
def parseNatField (s : String) (lo hi : Nat) : Option Nat :=
  if lo ≤ s.length ∧ s.length ≤ hi then parseDigits s else none

/-- Source line 83: `datetime.strptime(time, "%Y/%m/%d %H:%M")`.  `%Y`
matches exactly four digits, the other directives one or two; the datetime
constructor then validates the ranges (`ValueError` on failure, modelled as
`none`). -/
def strptime_YmdHM (s : String) : Option DT :=
  match splitOnChar ' ' s with
  | [datePart, timePart] =>
    match splitOnChar '/' datePart, splitOnChar ':' timePart with
    | [ys, ms, ds], [hs, mins] => do
      let y ← parseNatField ys 4 4
      let mo ← parseNatField ms 1 2
      let d ← parseNatField ds 1 2
      let h ← parseNatField hs 1 2
      let mi ← parseNatField mins 1 2
      if 1 ≤ y ∧ y ≤ 9999 ∧ 1 ≤ mo ∧ mo ≤ 12 ∧ 1 ≤ d ∧ d ≤ daysInMonth y mo
          ∧ h ≤ 23 ∧ mi ≤ 59 then
        some ⟨y, mo, d, h, mi⟩
      else none
    | _, _ => none
  | _ => none

/-- Ordinal of the Unix epoch day 1970-01-01. -/
def epochOrdinal : Nat := 719163

/-- Source lines 84-85: `dt.replace(tzinfo=tz); dt.timestamp()`.  For an
aware datetime with minute granularity and a whole-second UTC offset `off`,
`timestamp()` is the exact integer
`86400*(ordinal - epochOrdinal) + 3600*h + 60*min - off` (a value of this
magnitude is exactly representable as a Python float). -/
def timestampSec (dt : DT) (off : ℤ) : ℤ :=
  86400 * ((toOrdinal dt.year dt.month dt.day : ℤ) - (epochOrdinal : ℤ))
    + 3600 * (dt.hour : ℤ) + 60 * (dt.minute : ℤ) - off

/-- Python `int(s)` on a string: optional sign then decimal digits,
`ValueError` (here `none`) otherwise.  (Python additionally strips
surrounding whitespace and allows digit-group underscores; those forms do
not occur in the export and are not modelled.) -/
def pyParseInt (s : String) : Option ℤ :=
  match s.toList with
  | '-' :: rest => (parseDigits (String.mk rest)).map (fun n => -(n : ℤ))
  | '+' :: rest => (parseDigits (String.mk rest)).map (fun n => (n : ℤ))
  | _ => (parseDigits s).map (fun n => (n : ℤ))

/-- Unsigned decimal float body, e.g. `6`, `6.0`, `6.`, `.5`: returned as
a scaled mantissa `(m, k)` denoting `m / 10^k`. -/
def parseDecimalBody (s : String) : Option (ℕ × ℕ) :=
  match splitOnChar '.' s with
  | [intPart] => (parseDigits intPart).map (fun n => (n, 0))
  | [intPart, fracPart] =>
    if intPart = "" ∧ fracPart = "" then none
    else
      let ip := if intPart = "" then some 0 else parseDigits intPart
      let fp := if fracPart = "" then some 0 else parseDigits fracPart
      match ip, fp with
      | some i, some f => some (i * 10 ^ fracPart.length + f, fracPart.length)
      | _, _ => none
  | _ => none

/-- Python `float(s)` on the plain decimal forms used by the export
(`ValueError`, here `none`, otherwise; exponent, `inf`/`nan`, whitespace and
underscore forms do not occur in the export and are not modelled).  The
result is the exact rational `± m / 10^k`. -/
def pyParseFloat (s : String) : Option ℚ :=
  match s.toList with
  | '-' :: rest =>
    (parseDecimalBody (String.mk rest)).map (fun p => mkRat (-(p.1 : ℤ)) (10 ^ p.2))
  | '+' :: rest =>
    (parseDecimalBody (String.mk rest)).map (fun p => mkRat (p.1 : ℤ) (10 ^ p.2))
  | _ => (parseDecimalBody s).map (fun p => mkRat (p.1 : ℤ) (10 ^ p.2))

def pad2 (n : Nat) : String :=
  if n < 10 then "0" ++ toString n else toString n

def pad4 (n : Nat) : String :=
  if n < 10 then "000" ++ toString n
  else if n < 100 then "00" ++ toString n
  else if n < 1000 then "0" ++ toString n
  else toString n

/-- Source line 91: `dt.isoformat()` for the aware datetime (seconds are
zero, offset is a whole number of minutes). -/
def isoformatTz (dt : DT) (off : ℤ) : String :=
  let offMin := off.natAbs / 60
  let sign := if off < 0 then "-" else "+"
  pad4 dt.year ++ "-" ++ pad2 dt.month ++ "-" ++ pad2 dt.day ++ "T"
    ++ pad2 dt.hour ++ ":" ++ pad2 dt.minute ++ ":00"
    ++ sign ++ pad2 (offMin / 60) ++ ":" ++ pad2 (offMin % 60)

/-- Nightscout entry kind: `'sgv'` (sensor glucose) or `'mbg'` (meter
glucose). -/
inductive EntryType where
  | sgv
  | mbg
deriving DecidableEq, Repr

/-- One uploaded entry dict.  The glucose reading is stored under the key
`'sgv'` or `'mbg'` matching `type`; it is modelled as the single field
`value`. -/
structure Entry where
  type : EntryType
  value : ℤ
  date : ℤ
  dateString : String
deriving DecidableEq, Repr

/-- Row field access `row[i]`: `IndexError` (modelled as `none`) when the
row is too short. -/
def rowField (row : List String) (i : Nat) : Option String := row.get? i

/-- Source lines 93-101, the value-field part of one dispatch branch:
read `row[i]`, `float(...)` it, convert with `to_mldg`, and build the entry
dict. -/
def buildEntry (ty : EntryType) (row : List String) (i : Nat) (date : ℤ)
    (ds : String) : Except Err (Option Entry) :=
  match rowField row i with
  | none => .error .indexError
  | some vs =>
    match pyParseFloat vs with
    | none => .error .malformedValue
    | some v => .ok (some ⟨ty, to_mldg v, date, ds⟩)

/-- Source lines 92-101: `record_type = int(row[2])` and the
`if/elif/elif` dispatch.  Record type `0` (historic glucose) reads
`row[3]`, `1` (scan glucose) reads `row[4]`, `2` (strip glucose) reads
`row[12]` and is an `'mbg'` entry; any other numeric type falls through and
appends nothing. -/
def dispatchRecord (row : List String) (date : ℤ) (ds : String) :
    Except Err (Option Entry) :=
  match rowField row 2 with
  | none => .error .indexError
  | some rts =>
    match pyParseInt rts with
    | none => .error .malformedRecord
    | some record_type =>
      if record_type = 0 then buildEntry .sgv row 3 date ds
      else if record_type = 1 then buildEntry .sgv row 4 date ds
      else if record_type = 2 then buildEntry .mbg row 12 date ds
      else .ok none

/-- Source lines 81-101, the body of the row loop: parse `row[1]` with
`strptime`, compute the timestamp, `continue` when it is at or before the
watermark or at or after the run-start current time, otherwise dispatch on
the record type.  `.ok none` is a `continue` without an append. -/
def convertRow (last_timestamp : ℚ) (current_timestamp off : ℤ)
    (row : List String) : Except Err (Option Entry) :=
  match rowField row 1 with
  | none => .error .indexError
  | some timeStr =>
    match strptime_YmdHM timeStr with
    | none => .error .malformedTimestamp
    | some dt =>
      let timestamp := timestampSec dt off
      if (timestamp : ℚ) ≤ last_timestamp then .ok none
      else if current_timestamp ≤ timestamp then .ok none
      else dispatchRecord row (timestamp * 1000) (isoformatTz dt off)

/-- The row loop of lines 80-101 over the remaining rows, accumulating
`entries` in file order; an exception aborts the run. -/
def ingestRows (w : ℚ) (t off : ℤ) : List (List String) → Except Err (List Entry)
  | [] => .ok []
  | row :: rest =>
    match convertRow w t off row with
    | .error e => .error e
    | .ok none => ingestRows w t off rest
    | .ok (some en) =>
      match ingestRows w t off rest with
      | .error e => .error e
      | .ok ens => .ok (en :: ens)

/-- Source lines 77-101: the two `next(reader, None)` calls discard the
patient-name line and the header line, then the loop processes every
remaining row. -/
def ingestFile (w : ℚ) (t off : ℤ) (rows : List (List String)) :
    Except Err (List Entry) :=
  ingestRows w t off (rows.drop 2)

/-- The response of the watermark `GET`.  Only the `'date'` field of each
returned entry is ever read, so the decoded JSON body is modelled as the
list of those `date` values; `jsonBody = none` stands for a body on which
`r.json()` (or the subsequent `entries[0]['date']` access) raises. -/
structure HttpResponse where
  status : Nat
  jsonBody : Option (List ℤ)
deriving DecidableEq, Repr

/-- Source lines 29-39, `find_last_nightscout_entry`: `requests.get` (a
raised transport error is `getResult = none`), `r.json()`, then
`entries[0]['date'] / 1000` (true division, exact here) or `0` for an empty
list.  Note the HTTP status code of the response is never inspected. -/
def find_last_nightscout_entry (getResult : Option HttpResponse) :
    Except Err ℚ :=
  match getResult with
  | none => .error .transportError
  | some r =>
    match r.jsonBody with
    | none => .error .jsonDecodeError
    | some [] => .ok 0
    | some (d :: _) => .ok ((d : ℚ) / 1000)

/-- The response of the batch `POST` (`status_code` and `text`);
`none` models a raised transport error. -/
structure PostResponse where
  status : Nat
  text : String
deriving DecidableEq, Repr

/-- Observable outcome of one run of `upload_to_nightscout` (and of the
process around it): the decision-relevant console messages in order, the
number of `POST` attempts, and the process exit status (`1` for an uncaught
exception, `0` for a normal return). -/
structure RunResult where
  logs : List String
  postCount : Nat
  exitCode : Nat
deriving DecidableEq, Repr

/-- Source lines 65-120, `upload_to_nightscout`, with effects passed in:
`current_timestamp` is `int(datetime.now().timestamp())`, `off` the local
UTC offset in seconds, `getResult` the watermark `GET`'s outcome, `rows`
the csv rows of the latest file, `postResult` the batch `POST`'s outcome
(consulted only if a `POST` happens).  Informational prints other than the
listed messages are not modelled.  An uncaught exception terminates the
process with exit status 1; a plain return reaches the end of `__main__`
and exits 0. -/
def upload_to_nightscout (current_timestamp off : ℤ)
    (getResult : Option HttpResponse) (rows : List (List String))
    (dry_run : Bool) (postResult : Option PostResponse) : RunResult :=
  match find_last_nightscout_entry getResult with
  | .error _ => ⟨[], 0, 1⟩
  | .ok last_timestamp =>
    match ingestRows last_timestamp current_timestamp off (rows.drop 2) with
    | .error _ => ⟨[], 0, 1⟩
    | .ok entries =>
      if entries.isEmpty then ⟨["No new entries"], 0, 0⟩
      else if dry_run then ⟨["Dry run, not uploading to Nightscout"], 0, 0⟩
      else
        match postResult with
        | none => ⟨["Uploading to Nightscout"], 1, 1⟩
        | some r =>
          if r.status = 200 then
            ⟨["Uploading to Nightscout", "Uploaded successfully", r.text], 1, 0⟩
          else
            ⟨["Uploading to Nightscout", toString r.status, r.text], 1, 0⟩

/-- The entry appended by one loop iteration: `some` for an appended entry,
`none` for a skipped row or an aborting row (used to state order
preservation). -/
def okEntry : Except Err (Option Entry) → Option Entry
  | .ok o => o
  | .error _ => none

/-- Whether one converted row contributes an entry to the batch. -/
def yieldsEntry : Except Err (Option Entry) → Bool
  | .ok (some _) => true
  | _ => false

/-- A row whose record-type field parses to one of the glucose codes
`0`, `1`, `2` and whose corresponding value field is present and parses as
a float — i.e. a row that converts cleanly once it is inside the sync
window. -/
def wellFormedGlucoseRow (row : List String) : Bool :=
  match rowField row 2 with
  | none => false
  | some rts =>
    match pyParseInt rts with
    | none => false
    | some rt =>
      if rt = 0 then ((rowField row 3).bind pyParseFloat).isSome
      else if rt = 1 then ((rowField row 4).bind pyParseFloat).isSome
      else if rt = 2 then ((rowField row 12).bind pyParseFloat).isSome
      else false

/-- Transcribes the value-field column of the spec's dispatch table:
type `0` reads field 3, type `1` reads field 4, type `2` reads field 12
(the fallback index 0 is never consulted for other codes). -/
def specValueIndex (rt : ℤ) : Nat :=
  if rt = 0 then 3 else if rt = 1 then 4 else if rt = 2 then 12 else 0

/-- Transcribes the spec's dispatch table for one in-window record with
parsed type code `rt` and parsed value `v`: the claim's expected entry, or
`none` for any other code. -/
def specRecordDispatch (rt : ℤ) (v : ℚ) (date : ℤ) (ds : String) : Option Entry :=
  if rt = 0 then some ⟨.sgv, to_mldg v, date, ds⟩
  else if rt = 1 then some ⟨.sgv, to_mldg v, date, ds⟩
  else if rt = 2 then some ⟨.mbg, to_mldg v, date, ds⟩
  else none

/-! ### Arithmetic facts about the unit conversion -/

/-- The float constant of line 43 as an exact rational. -/
lemma ratConst_eq : (18.018018 : ℚ) = 18018018 / 1000000 := by
  norm_num [Rat.ofScientific_def]

/-- For a non-negative rational, Python truncation agrees with `⌊⌋`. -/
lemma pytrunc_eq_floor (q : ℚ) (h : 0 ≤ q) : pytrunc q = ⌊q⌋ := by
  rw [pytrunc, Rat.floor_def]
  exact Int.tdiv_eq_ediv (Rat.num_nonneg.mpr h) (Int.natCast_nonneg _)

/-- The product `q * 18.018018` as an unreduced integer fraction. -/
lemma mul_ratConst_eq (q : ℚ) :
    q * 18.018018 = ((q.num * 18018018 : ℤ) : ℚ) / ((q.den * 1000000 : ℕ) : ℚ) := by
  rw [ratConst_eq]
  conv_lhs => rw [← Rat.num_div_den q]
  rw [div_mul_div_comm]
  push_cast
  ring

/-- On non-negative readings, `to_mldg` is the floor of the exact product
with the conversion constant. -/
lemma to_mldg_eq_floor (q : ℚ) (h : 0 ≤ q) : to_mldg q = ⌊q * 18.018018⌋ := by
  have h1 : (0 : ℤ) ≤ q.num * 18018018 :=
    mul_nonneg (Rat.num_nonneg.mpr h) (by norm_num)
  have h2 : (0 : ℤ) ≤ (q.den : ℤ) * 1000000 := by positivity
  have key : ((q.den * 1000000 : ℕ) : ℤ) = (q.den : ℤ) * 1000000 := by
    push_cast
    ring
  rw [to_mldg, mul_ratConst_eq, Rat.floor_intCast_div_natCast, key,
    ← Int.tdiv_eq_ediv h1 h2]

/-- On non-negative readings, computing the truncation on the unreduced
fraction agrees with truncating the reduced rational product: `to_mldg` is
exactly `int(mmoll * 18.018018)`. -/
lemma to_mldg_eq_pytrunc_mul (q : ℚ) (h : 0 ≤ q) :
    to_mldg q = pytrunc (q * 18.018018) := by
  rw [to_mldg_eq_floor q h, pytrunc_eq_floor]
  exact mul_nonneg h (by norm_num)

/-- The decimal string `5.55` parses to the exact rational `555/100`. -/
lemma ratLit_555 : (5.55 : ℚ) = mkRat 555 100 := by
  rw [Rat.mkRat_eq_divInt, Rat.divInt_eq_div]
  norm_num [Rat.ofScientific_def]

/-- Claim C5: the unit conversion maps a mmol/L reading `x` to
`floor(x * 18.018018)`, truncating rather than rounding; in particular
`to_mldg 5 = 90` and `to_mldg 5.55 = 99`. -/
theorem claim_C5 (x : ℚ) (h : 0 ≤ x) :
    to_mldg x = ⌊x * 18.018018⌋ ∧ to_mldg 5 = 90 ∧ to_mldg (5.55 : ℚ) = 99 := by
  refine ⟨to_mldg_eq_floor x h, by decide, ?_⟩
  rw [ratLit_555]
  decide

/-- Witness for C5 at the concrete reading `x = 5`. -/
theorem claim_C5_witness :
    (0 : ℚ) ≤ 5
    ∧ (to_mldg 5 = ⌊(5 : ℚ) * 18.018018⌋ ∧ to_mldg 5 = 90 ∧ to_mldg (5.55 : ℚ) = 99) :=
  ⟨by decide, claim_C5 5 (by decide)⟩

/-- Claim C9: the conversion is monotone non-decreasing on non-negative
readings. -/
theorem claim_C9 (a b : ℚ) (h0 : 0 ≤ a) (hab : a ≤ b) : to_mldg a ≤ to_mldg b := by
  rw [to_mldg_eq_floor a h0, to_mldg_eq_floor b (h0.trans hab)]
  exact Int.floor_le_floor (mul_le_mul_of_nonneg_right hab (by norm_num))

/-- Witness for C9 at the concrete readings `a = 5`, `b = 6`. -/
theorem claim_C9_witness :
    (0 : ℚ) ≤ 5 ∧ (5 : ℚ) ≤ 6 ∧ to_mldg 5 ≤ to_mldg 6 :=
  ⟨by decide, by decide, claim_C9 5 6 (by decide) (by decide)⟩

/-! ### The sync-window filter and record dispatch -/

/-- A row whose instant is at or before the watermark, or at or after the
run-start time, is skipped (`continue`) before its record type is even
read. -/
lemma convertRow_skip (w : ℚ) (t off : ℤ) (row : List String) (ts : String)
    (dt : DT) (h1 : rowField row 1 = some ts)
    (h2 : strptime_YmdHM ts = some dt)
    (hskip : (timestampSec dt off : ℚ) ≤ w ∨ t ≤ timestampSec dt off) :
    convertRow w t off row = .ok none := by
  simp only [convertRow, h1, h2]
  rcases hskip with h | h
  · rw [if_pos h]
  · by_cases h' : (timestampSec dt off : ℚ) ≤ w
    · rw [if_pos h']
    · rw [if_neg h', if_pos h]

/-- A row strictly inside the sync window reaches the record-type
dispatch. -/
lemma convertRow_inWindow (w : ℚ) (t off : ℤ) (row : List String)
    (ts : String) (dt : DT) (h1 : rowField row 1 = some ts)
    (h2 : strptime_YmdHM ts = some dt)
    (hw : w < (timestampSec dt off : ℚ)) (ht : timestampSec dt off < t) :
    convertRow w t off row
      = dispatchRecord row (timestampSec dt off * 1000) (isoformatTz dt off) := by
  simp only [convertRow, h1, h2]
  rw [if_neg (not_le.mpr hw), if_neg (not_le.mpr ht)]

lemma yieldsEntry_buildEntry (ty : EntryType) (row : List String) (i : Nat)
    (date : ℤ) (ds : String) :
    yieldsEntry (buildEntry ty row i date ds)
      = ((rowField row i).bind pyParseFloat).isSome := by
  rw [buildEntry]
  cases hA : rowField row i with
  | none => simp [yieldsEntry]
  | some vs =>
    cases hB : pyParseFloat vs with
    | none => simp [yieldsEntry, hB]
    | some v => simp [yieldsEntry, hB]

/-- The dispatch appends an entry exactly for well-formed glucose rows. -/
lemma yieldsEntry_dispatchRecord (row : List String) (date : ℤ) (ds : String) :
    yieldsEntry (dispatchRecord row date ds) = wellFormedGlucoseRow row := by
  rw [dispatchRecord, wellFormedGlucoseRow]
  cases hA : rowField row 2 with
  | none => simp [yieldsEntry]
  | some rts =>
    cases hB : pyParseInt rts with
    | none => simp [hB, yieldsEntry]
    | some rt =>
      by_cases r0 : rt = 0
      · simp [hB, r0, yieldsEntry_buildEntry]
      · by_cases r1 : rt = 1
        · simp [hB, r0, r1, yieldsEntry_buildEntry]
        · by_cases r2 : rt = 2
          · simp [hB, r0, r1, r2, yieldsEntry_buildEntry]
          · simp [hB, r0, r1, r2, yieldsEntry]

/-- Claim C1: a record yields an uploaded entry only if its instant `e`
satisfies `w < e < t` strictly; a record with `e ≤ w` or `e ≥ t` is
skipped, producing no entry; and for a well-formed glucose record,
inclusion in the batch holds iff `w < e < t`. -/
theorem claim_C1 (w : ℚ) (t off : ℤ) (row : List String) (ts : String)
    (dt : DT) (h1 : rowField row 1 = some ts)
    (h2 : strptime_YmdHM ts = some dt) :
    (yieldsEntry (convertRow w t off row) = true →
        w < (timestampSec dt off : ℚ) ∧ timestampSec dt off < t)
    ∧ (((timestampSec dt off : ℚ) ≤ w ∨ t ≤ timestampSec dt off) →
        convertRow w t off row = .ok none)
    ∧ (wellFormedGlucoseRow row = true →
        (yieldsEntry (convertRow w t off row) = true ↔
          (w < (timestampSec dt off : ℚ) ∧ timestampSec dt off < t))) := by
  have skip := convertRow_skip w t off row ts dt h1 h2
  have onlyIf : yieldsEntry (convertRow w t off row) = true →
      w < (timestampSec dt off : ℚ) ∧ timestampSec dt off < t := by
    intro hy
    constructor
    · by_contra hw
      rw [skip (Or.inl (not_lt.mp hw))] at hy
      simp [yieldsEntry] at hy
    · by_contra ht'
      rw [skip (Or.inr (not_lt.mp ht'))] at hy
      simp [yieldsEntry] at hy
  refine ⟨onlyIf, skip, fun hwf => ⟨onlyIf, ?_⟩⟩
  rintro ⟨hw, ht'⟩
  rw [convertRow_inWindow w t off row ts dt h1 h2 hw ht',
    yieldsEntry_dispatchRecord]
  exact hwf

/-- Witness for C1: a well-formed type-0 row at 1970-01-02 00:00 UTC with
watermark 0 and current time 100000 is included. -/
theorem claim_C1_witness :
    yieldsEntry (convertRow 0 100000 0 ["", "1970/01/02 00:00", "0", "6.0"]) = true :=
  ((claim_C1 0 100000 0 ["", "1970/01/02 00:00", "0", "6.0"] "1970/01/02 00:00"
      ⟨1970, 1, 2, 0, 0⟩ rfl rfl).2.2 rfl).mpr ⟨by decide, by decide⟩

/-- Claim C3: for an in-window row, record-type code 0 produces an `sgv`
entry converted from field 3, code 1 an `sgv` entry from field 4, code 2 an
`mbg` entry from field 12, and any other parsed code yields no entry — the
conversion agrees with the spec's dispatch table `specRecordDispatch`. -/
theorem claim_C3 (w : ℚ) (t off : ℤ) (row : List String) (ts : String)
    (dt : DT) (rts vs : String) (rt : ℤ) (v : ℚ)
    (h1 : rowField row 1 = some ts) (h2 : strptime_YmdHM ts = some dt)
    (hw : w < (timestampSec dt off : ℚ)) (ht : timestampSec dt off < t)
    (h3 : rowField row 2 = some rts) (h4 : pyParseInt rts = some rt)
    (h5 : rt = 0 ∨ rt = 1 ∨ rt = 2 →
        rowField row (specValueIndex rt) = some vs ∧ pyParseFloat vs = some v) :
    convertRow w t off row
      = .ok (specRecordDispatch rt v (timestampSec dt off * 1000)
          (isoformatTz dt off)) := by
  rw [convertRow_inWindow w t off row ts dt h1 h2 hw ht]
  simp only [dispatchRecord, h3, h4]
  by_cases r0 : rt = 0
  · subst r0
    obtain ⟨ha, hb⟩ := h5 (Or.inl rfl)
    have ha' : rowField row 3 = some vs := ha
    simp [buildEntry, ha', hb, specRecordDispatch]
  · by_cases r1 : rt = 1
    · subst r1
      obtain ⟨ha, hb⟩ := h5 (Or.inr (Or.inl rfl))
      have ha' : rowField row 4 = some vs := ha
      simp [r0, buildEntry, ha', hb, specRecordDispatch]
    · by_cases r2 : rt = 2
      · subst r2
        obtain ⟨ha, hb⟩ := h5 (Or.inr (Or.inr rfl))
        have ha' : rowField row 12 = some vs := ha
        simp [r0, r1, buildEntry, ha', hb, specRecordDispatch]
      · simp [r0, r1, r2, specRecordDispatch]

/-- Witness for C3: the concrete type-0 row at 1970-01-02 00:00 with value
6.0 mmol/L converts to the table's entry for code 0. -/
theorem claim_C3_witness :
    convertRow 0 100000 0 ["", "1970/01/02 00:00", "0", "6.0"]
      = .ok (specRecordDispatch 0 (mkRat 60 10) 86400000
          "1970-01-02T00:00:00+00:00") :=
  claim_C3 0 100000 0 ["", "1970/01/02 00:00", "0", "6.0"] "1970/01/02 00:00"
    ⟨1970, 1, 2, 0, 0⟩ "0" "6.0" 0 (mkRat 60 10) rfl rfl (by decide) (by decide)
    rfl rfl (fun _ => ⟨rfl, rfl⟩)

/-- Claim C4 (amended): for an in-window row whose record-type field parses
as a numeric code other than 0, 1 or 2, the converter rejects the row
silently with no entry and no error; but for an in-window row whose
record-type field is not numeric (e.g. a note record), `int(row[2])` raises,
aborting the run. -/
theorem claim_C4 (w : ℚ) (t off : ℤ) (row : List String) (ts : String)
    (dt : DT) (rts : String) (ort : Option ℤ)
    (h1 : rowField row 1 = some ts) (h2 : strptime_YmdHM ts = some dt)
    (hw : w < (timestampSec dt off : ℚ)) (ht : timestampSec dt off < t)
    (h3 : rowField row 2 = some rts) (h4 : pyParseInt rts = ort)
    (h5 : ∀ rt : ℤ, ort = some rt → rt ≠ 0 ∧ rt ≠ 1 ∧ rt ≠ 2) :
    convertRow w t off row
      = match ort with
        | none => .error .malformedRecord
        | some _ => .ok none := by
  rw [convertRow_inWindow w t off row ts dt h1 h2 hw ht]
  simp only [dispatchRecord, h3, h4]
  cases ort with
  | none => rfl
  | some rt =>
    obtain ⟨n0, n1, n2⟩ := h5 rt rfl
    simp [n0, n1, n2]

/-- Witness for C4 (amended): an in-window row with the unknown numeric
code 5 yields no entry and no error. -/
theorem claim_C4_witness :
    convertRow 0 100000 0 ["", "1970/01/02 00:00", "5"] = .ok none :=
  claim_C4 0 100000 0 ["", "1970/01/02 00:00", "5"] "1970/01/02 00:00"
    ⟨1970, 1, 2, 0, 0⟩ "5" (some 5) rfl rfl (by decide) (by decide) rfl rfl
    (fun rt h => by
      injection h with h
      subst h
      exact ⟨by decide, by decide, by decide⟩)

/-- Counterexample to C4 as stated: an in-window row whose record-type
field is the non-numeric string `"note"` does not fail silently — the
conversion raises a `ValueError` from `int(row[2])`, aborting the run. -/
theorem claim_C4_counterexample :
    convertRow 0 100000 0 ["", "1970/01/02 00:00", "note"]
        = .error .malformedRecord
    ∧ convertRow 0 100000 0 ["", "1970/01/02 00:00", "note"]
        ≠ .ok none :=
  ⟨rfl, fun h => Except.noConfusion h⟩

/-! ### Ingestion order and batch invariants -/

/-- A successful run of the row loop produces exactly the order-preserving
`filterMap` of the conversion over the rows. -/
lemma ingestRows_ok_eq (w : ℚ) (t off : ℤ) (rows : List (List String))
    (batch : List Entry) (h : ingestRows w t off rows = .ok batch) :
    batch = rows.filterMap (fun row => okEntry (convertRow w t off row)) := by
  induction rows generalizing batch with
  | nil =>
    simp only [ingestRows, Except.ok.injEq] at h
    simp [← h]
  | cons row rest ih =>
    rw [ingestRows] at h
    cases hc : convertRow w t off row with
    | error e =>
      rw [hc] at h
      cases h
    | ok o =>
      rw [hc] at h
      cases o with
      | none =>
        simpa [List.filterMap_cons, hc, okEntry] using ih batch h
      | some en =>
        cases hr : ingestRows w t off rest with
        | error e =>
          rw [hr] at h
          cases h
        | ok ens =>
          rw [hr] at h
          cases h
          simp [List.filterMap_cons, hc, okEntry, ih ens hr]

/-- An appended entry records the `date` passed to the dispatch. -/
lemma buildEntry_ok_date (ty : EntryType) (row : List String) (i : Nat)
    (date : ℤ) (ds : String) (en : Entry)
    (h : buildEntry ty row i date ds = .ok (some en)) : en.date = date := by
  rw [buildEntry] at h
  cases hA : rowField row i with
  | none =>
    rw [hA] at h
    cases h
  | some vs =>
    simp only [hA] at h
    cases hB : pyParseFloat vs with
    | none =>
      simp only [hB] at h
      cases h
    | some v =>
      simp only [hB, Except.ok.injEq, Option.some.injEq] at h
      rw [← h]

lemma dispatchRecord_ok_date (row : List String) (date : ℤ) (ds : String)
    (en : Entry) (h : dispatchRecord row date ds = .ok (some en)) :
    en.date = date := by
  rw [dispatchRecord] at h
  cases hA : rowField row 2 with
  | none =>
    rw [hA] at h
    cases h
  | some rts =>
    simp only [hA] at h
    cases hB : pyParseInt rts with
    | none =>
      simp only [hB] at h
      cases h
    | some rt =>
      simp only [hB] at h
      by_cases r0 : rt = 0
      · rw [if_pos r0] at h
        exact buildEntry_ok_date _ _ _ _ _ _ h
      · rw [if_neg r0] at h
        by_cases r1 : rt = 1
        · rw [if_pos r1] at h
          exact buildEntry_ok_date _ _ _ _ _ _ h
        · rw [if_neg r1] at h
          by_cases r2 : rt = 2
          · rw [if_pos r2] at h
            exact buildEntry_ok_date _ _ _ _ _ _ h
          · rw [if_neg r2] at h
            cases h

/-- Every entry the converter appends has a `date` of the form
`timestamp * 1000` for the whole-second timestamp of its row. -/
lemma convertRow_ok_date (w : ℚ) (t off : ℤ) (row : List String) (en : Entry)
    (h : convertRow w t off row = .ok (some en)) :
    ∃ s : ℤ, en.date = s * 1000 := by
  rw [convertRow] at h
  cases hA : rowField row 1 with
  | none =>
    rw [hA] at h
    cases h
  | some ts =>
    simp only [hA] at h
    cases hB : strptime_YmdHM ts with
    | none =>
      simp only [hB] at h
      cases h
    | some dt =>
      simp only [hB] at h
      by_cases hw : (timestampSec dt off : ℚ) ≤ w
      · rw [if_pos hw] at h
        cases h
      · rw [if_neg hw] at h
        by_cases ht : t ≤ timestampSec dt off
        · rw [if_pos ht] at h
          cases h
        · rw [if_neg ht] at h
          exact ⟨timestampSec dt off, dispatchRecord_ok_date _ _ _ _ h⟩

/-- Claim C8: ingestion skips exactly the first two lines unconditionally
(their content never matters), processes every subsequent row in order, and
the batch is the order-preserving `filterMap` of the per-row conversion —
entries appear in the same relative order as their source rows. -/
theorem claim_C8 (a b : List String) (rest : List (List String)) (w : ℚ)
    (t off : ℤ) (batch : List Entry)
    (h : ingestRows w t off rest = .ok batch) :
    ingestFile w t off (a :: b :: rest) = .ok batch
    ∧ batch = rest.filterMap (fun row => okEntry (convertRow w t off row)) := by
  constructor
  · rw [ingestFile]
    simpa using h
  · exact ingestRows_ok_eq w t off rest batch h

/-- Witness for C8: a three-line file whose first two lines are junk
produces exactly the entries of its third line, in order. -/
theorem claim_C8_witness :
    ingestFile 0 100000 0
        [["patient"], ["header"], ["", "1970/01/02 00:00", "0", "6.0"]]
      = .ok [⟨.sgv, 108, 86400000, "1970-01-02T00:00:00+00:00"⟩]
    ∧ [(⟨.sgv, 108, 86400000, "1970-01-02T00:00:00+00:00"⟩ : Entry)]
      = [["", "1970/01/02 00:00", "0", "6.0"]].filterMap
          (fun row => okEntry (convertRow 0 100000 0 row)) :=
  claim_C8 ["patient"] ["header"] [["", "1970/01/02 00:00", "0", "6.0"]]
    0 100000 0 [⟨.sgv, 108, 86400000, "1970-01-02T00:00:00+00:00"⟩] rfl

/-- Claim C10: every produced entry's `date` is an exact multiple of 1000 —
a whole number of epoch seconds expressed in milliseconds, since the parsed
timestamp format has only minute granularity. -/
theorem claim_C10 (w : ℚ) (t off : ℤ) (lines : List (List String))
    (batch : List Entry) (h : ingestFile w t off lines = .ok batch) :
    ∀ en ∈ batch, (1000 : ℤ) ∣ en.date := by
  intro en hen
  rw [ingestRows_ok_eq w t off (lines.drop 2) batch h] at hen
  obtain ⟨row, _, hok⟩ := List.mem_filterMap.mp hen
  cases hc : convertRow w t off row with
  | error e =>
    rw [hc] at hok
    simp [okEntry] at hok
  | ok o =>
    rw [hc] at hok
    cases o with
    | none => simp [okEntry] at hok
    | some en' =>
      simp only [okEntry, Option.some.injEq] at hok
      subst hok
      obtain ⟨s, hs⟩ := convertRow_ok_date w t off row en' hc
      exact ⟨s, by rw [hs, mul_comm]⟩

/-- Witness for C10: the date of the single entry of a concrete run is
divisible by 1000. -/
theorem claim_C10_witness : (1000 : ℤ) ∣ 86400000 :=
  claim_C10 0 100000 0 [[], [], ["", "1970/01/02 00:00", "0", "6.0"]]
    [⟨.sgv, 108, 86400000, "1970-01-02T00:00:00+00:00"⟩] rfl
    ⟨.sgv, 108, 86400000, "1970-01-02T00:00:00+00:00"⟩
    (List.mem_singleton.mpr rfl)

/-! ### Watermark resolution and run outcomes -/

/-- Claim C6 (amended): the watermark resolver returns
`entries[0].date / 1000` epoch seconds, or `0` when the returned JSON array
is empty, and raises (fatally) on a transport error or a body that is not a
JSON entry array; the HTTP status code of the response is never inspected,
so a non-success response whose body parses as a JSON array is processed
exactly as a success would be. -/
theorem claim_C6 :
    find_last_nightscout_entry none = .error .transportError
    ∧ (∀ s : Nat, find_last_nightscout_entry (some ⟨s, none⟩)
        = .error .jsonDecodeError)
    ∧ (∀ s : Nat, find_last_nightscout_entry (some ⟨s, some []⟩) = .ok 0)
    ∧ (∀ (s : Nat) (d : ℤ) (rest : List ℤ),
        find_last_nightscout_entry (some ⟨s, some (d :: rest)⟩)
          = .ok ((d : ℚ) / 1000)) :=
  ⟨rfl, fun _ => rfl, fun _ => rfl, fun _ _ _ => rfl⟩

/-- Counterexample to C6 as stated: a non-success HTTP response (status
500) whose body is the empty JSON array does not fail — it yields the
watermark 0 as if the store were empty. -/
theorem claim_C6_counterexample :
    find_last_nightscout_entry (some ⟨500, some []⟩) = .ok 0 := rfl

/-- Claim C7: whenever the computed batch is empty, the run reports
"No new entries", performs no upload call, and terminates successfully,
for any dry-run setting. -/
theorem claim_C7 (t off : ℤ) (g : Option HttpResponse)
    (rows : List (List String)) (dry : Bool) (post : Option PostResponse)
    (w : ℚ) (hg : find_last_nightscout_entry g = .ok w)
    (hi : ingestRows w t off (rows.drop 2) = .ok []) :
    upload_to_nightscout t off g rows dry post = ⟨["No new entries"], 0, 0⟩ := by
  simp only [upload_to_nightscout, hg, hi, List.isEmpty_nil, if_true]

/-- Witness for C7: a run over an empty file against an empty store
reports "No new entries", makes zero POSTs and exits 0. -/
theorem claim_C7_witness :
    upload_to_nightscout 100 0 (some ⟨200, some []⟩) [] false none
      = ⟨["No new entries"], 0, 0⟩ :=
  claim_C7 100 0 (some ⟨200, some []⟩) [] false none 0 rfl rfl

/-- Claim C2 (amended): when the batch upload POST returns a non-success
HTTP status, the run logs the status and the response body, makes exactly
one POST attempt (no retry, split or resubmission) — and then terminates
with exit status zero, because the function returns normally; only a
transport error on the POST (an uncaught exception) terminates the process
with a non-zero status, likewise without any retry. -/
theorem claim_C2 (t off : ℤ) (g : Option HttpResponse)
    (rows : List (List String)) (w : ℚ) (entries : List Entry)
    (r : PostResponse) (hg : find_last_nightscout_entry g = .ok w)
    (hi : ingestRows w t off (rows.drop 2) = .ok entries)
    (hne : entries ≠ []) (hr : r.status ≠ 200) :
    upload_to_nightscout t off g rows false (some r)
        = ⟨["Uploading to Nightscout", toString r.status, r.text], 1, 0⟩
    ∧ upload_to_nightscout t off g rows false none
        = ⟨["Uploading to Nightscout"], 1, 1⟩ := by
  have hem : entries.isEmpty = false := by
    simpa [List.isEmpty_eq_false] using hne
  constructor
  · simp only [upload_to_nightscout, hg, hi, hem, Bool.false_eq_true,
      if_false, if_neg hr]
  · simp only [upload_to_nightscout, hg, hi, hem, Bool.false_eq_true,
      if_false]

/-- Witness for C2 (amended): a concrete run whose POST returns status 500
logs "500" and the body, posts once, and exits 0; the same run with a
raised transport error exits 1. -/
theorem claim_C2_witness :
    upload_to_nightscout 100000000 0 (some ⟨200, some []⟩)
        [[], [], ["", "1970/01/02 00:00", "0", "6.0"]] false
        (some ⟨500, "Internal Server Error"⟩)
      = ⟨["Uploading to Nightscout", "500", "Internal Server Error"], 1, 0⟩
    ∧ upload_to_nightscout 100000000 0 (some ⟨200, some []⟩)
        [[], [], ["", "1970/01/02 00:00", "0", "6.0"]] false none
      = ⟨["Uploading to Nightscout"], 1, 1⟩ :=
  claim_C2 100000000 0 (some ⟨200, some []⟩)
    [[], [], ["", "1970/01/02 00:00", "0", "6.0"]] 0
    [⟨.sgv, 108, 86400000, "1970-01-02T00:00:00+00:00"⟩]
    ⟨500, "Internal Server Error"⟩ rfl rfl (by simp) (by simp)

/-- Counterexample to C2 as stated: a run whose batch POST returns the
non-success status 500 terminates with process exit status 0, not a
non-zero status (the failure is logged but the function returns
normally). -/
theorem claim_C2_counterexample :
    upload_to_nightscout 100000000 0 (some ⟨200, some []⟩)
        [[], [], ["", "1970/01/02 00:00", "0", "6.0"]] false
        (some ⟨500, "Internal Server Error"⟩)
      = ⟨["Uploading to Nightscout", "500", "Internal Server Error"], 1, 0⟩ := rfl
